import Mathlib

/-!
Verification of the operation dispatch/matching engine described by the
repository's specification, against the code in `fs/orangefs/pvfs2-mod.c`
(module init `pvfs2_init`, teardown `pvfs2_exit`, and the shutdown purge
sweep `purge_inprogress_ops`).

The embedding is shallow: the two module-scope containers
(`pvfs2_request_list`, the Pending Queue, and `htable_ops_in_progress`,
the In-Progress Table) become Lean lists; an operation record
(`struct pvfs2_kernel_op_s`) becomes a small structure carrying the
fields the claims mention (tag, lifecycle state, response blob).
Lock acquisition and wake-ups are made observable through an explicit
event trace emitted by the instrumented functions.
-/

namespace Pvfs2

/-- Lifecycle states of an operation record (spec section 3). -/
inductive OpState where
  | Created
  | Queued
  | Claimed
  | Serviced
  | TimedOut
  | Purged
  | Cancelled
deriving DecidableEq

/-- An operation record: `struct pvfs2_kernel_op_s`, restricted to the
fields the claims are about.  `tag` identifies the op, `state` is its
lifecycle state, `response` is the opaque response blob (written by the
completion path). -/
structure Op where
  tag : Nat
  state : OpState
  response : Option Nat
deriving DecidableEq

/-- The engine's two containers: `pvfs2_request_list` (Pending Queue,
head first) and `htable_ops_in_progress` (In-Progress Table, one inner
list per hash bucket). -/
structure EngineState where
  requestList : List Op
  htable : List (List Op)
deriving DecidableEq

/-- `set_op_state_purged(op)`: marks the record `Purged`. -/
def set_op_state_purged (op : Op) : Op :=
  { op with state := OpState.Purged }

/-- The effect of `purge_inprogress_ops` on one bucket: each entry is
visited (`list_for_each_entry_safe`), locked, marked purged, unlocked and
its waiter woken.  No `list_del` is performed, so the entry stays linked. -/
def purge_bucket (b : List Op) : List Op :=
  b.map set_op_state_purged

/-- `purge_inprogress_ops`: walks every bucket of the In-Progress Table
and marks each op found there as purged.  The Pending Queue is not
touched by this function. -/
def purge_inprogress_ops (s : EngineState) : EngineState :=
  { s with htable := s.htable.map purge_bucket }

/-- Observable events of the purge sweep: per-op lock and unlock
(`spin_lock(&op->lock)`), waking the op's wait queue, acquiring or
releasing the table-wide lock `htable_ops_in_progress_lock`, acquiring
or releasing `pvfs2_request_list_lock`, and entering a bucket or the
Pending Queue. -/
inductive Event where
  | lockOp (tag : Nat)
  | unlockOp (tag : Nat)
  | wake (tag : Nat)
  | lockTable
  | unlockTable
  | lockRequestList
  | unlockRequestList
  | visitBucket (i : Nat)
  | visitQueue
deriving DecidableEq

/-- Events emitted while `purge_inprogress_ops` handles one op:
`spin_lock(&op->lock)`, `set_op_state_purged`, `spin_unlock(&op->lock)`,
`wake_up_interruptible(&op->waitq)`. -/
def purgeOpEvents (op : Op) : List Event :=
  [Event.lockOp op.tag, Event.unlockOp op.tag, Event.wake op.tag]

/-- Events emitted while `purge_inprogress_ops` traverses bucket `i`. -/
def purgeBucketEvents (i : Nat) (b : List Op) : List Event :=
  Event.visitBucket i :: (b.map purgeOpEvents).flatten

/-- Events of the `for (i = 0; i < hash_table_size; i++)` walk of
`purge_inprogress_ops`, starting at bucket index `i`. -/
def purgeBuckets : Nat → List (List Op) → List Event
  | _, [] => []
  | i, b :: rest => purgeBucketEvents i b ++ purgeBuckets (i + 1) rest

/-- The full event trace of one run of `purge_inprogress_ops`. -/
def purgeTrace (s : EngineState) : List Event :=
  purgeBuckets 0 s.htable

/-- Extracts the bucket index of a bucket-visit event. -/
def visitIdx : Event → Option Nat
  | Event.visitBucket i => some i
  | _ => none

/-- The sequence of bucket indices a trace visits, in order. -/
def bucketVisits (tr : List Event) : List Nat :=
  tr.filterMap visitIdx

/-- Checks that a trace takes only per-op locks, each released before any
further event, and takes no container-wide lock at all. -/
def opScopedLocks : List Event → Bool
  | [] => true
  | Event.lockOp t :: Event.unlockOp u :: rest => t == u && opScopedLocks rest
  | Event.visitBucket _ :: rest => opScopedLocks rest
  | Event.visitQueue :: rest => opScopedLocks rest
  | Event.wake _ :: rest => opScopedLocks rest
  | _ => false

/-! ## Teardown: the drain loops of `pvfs2_exit`

`pvfs2_exit` first drains the Pending Queue under
`pvfs2_request_list_lock`, unlinking each head (`list_del`) and calling
`op_release` on it, then walks every bucket of the In-Progress Table
with `while (!list_empty(...)) { cur_op = first entry; op_release(cur_op); }`.
`op_release` is declared in the repository's headers but its definition
is not among the provided source files, so it is modelled from the spec.
-/

/-- Modelled from the spec: `op_release` realises `release(handle)` of
spec section 4.1, which destroys an operation record after its caller is
done with it.  The spec gives `release` no container-removal effect (a
record reaching `release` is expected to be out of both containers
already), so releasing a record leaves the linkage of any list it still
sits on unchanged. -/
def op_release_list_effect (b : List Op) : List Op :=
  b

/-- The Pending Queue drain loop of `pvfs2_exit`:
`while (!list_empty(&pvfs2_request_list))` unlink the head with
`list_del` and `op_release` it. -/
def pvfs2_exit_drain_request_list : List Op → List Op
  | [] => []
  | _cur_op :: rest => pvfs2_exit_drain_request_list rest

/-- The per-bucket drain loop of `pvfs2_exit`:
`while (!list_empty(&htable_ops_in_progress[i]))` take the first entry
and `op_release` it — with no `list_del`.  The loop is modelled with
explicit fuel; `none` means the fuel ran out before `list_empty`
became true. -/
def pvfs2_exit_drain_bucket : Nat → List Op → Option (List Op)
  | _, [] => some []
  | 0, _ :: _ => none
  | fuel + 1, cur_op :: rest =>
      pvfs2_exit_drain_bucket fuel (op_release_list_effect (cur_op :: rest))

/-- The `for (i = 0; i < hash_table_size; i++)` walk of the bucket drain
loops in `pvfs2_exit`. -/
def pvfs2_exit_drain_buckets (fuel : Nat) : List (List Op) → Option (List (List Op))
  | [] => some []
  | b :: rest =>
      match pvfs2_exit_drain_bucket fuel b with
      | none => none
      | some b2 =>
          match pvfs2_exit_drain_buckets fuel rest with
          | none => none
          | some rest2 => some (b2 :: rest2)

/-- The whole drain section of `pvfs2_exit` (queue drain followed by the
bucket drains), with fuel bounding each bucket's `while` loop. -/
def pvfs2_exit_drain (fuel : Nat) (s : EngineState) : Option EngineState :=
  match pvfs2_exit_drain_buckets fuel s.htable with
  | none => none
  | some t => some { requestList := pvfs2_exit_drain_request_list s.requestList, htable := t }

/-! ## The completion path

`complete(tag, response)` — the service-agent side dispatch of a matching
downcall — is part of this engine but not among the provided source
files; it is modelled from the spec (sections 4.3 and 4.4).
-/

/-- Unlinks the first record with tag `t` from a bucket list. -/
def eraseTag : List Op → Nat → List Op
  | [], _ => []
  | op :: rest, t => if op.tag = t then rest else op :: eraseTag rest t

/-- Modelled from the spec: `complete(tag, response)` (spec section 4.3)
hashes the tag to bucket `tag mod bucket_count`, looks the tag up there,
and if found and still `Claimed` attaches the response, transitions the
record to `Serviced`, removes it from the table and hands it to the
waiter; otherwise (tag absent, or the record already terminal, spec
section 4.4) it returns false and changes nothing.  The result is
(success flag, table after the call, record handed to the waiter). -/
def complete (table : List (List Op)) (t r : Nat) : Bool × List (List Op) × Option Op :=
  if table.isEmpty then (false, table, none)
  else
    let i := t % table.length
    let b := table.getD i []
    match b.find? (fun op => op.tag == t) with
    | none => (false, table, none)
    | some op =>
        if op.state == OpState.Claimed then
          (true, table.set i (eraseTag b t),
           some { op with state := OpState.Serviced, response := some r })
        else (false, table, none)

/-! ## Initialization: `pvfs2_init`

`pvfs2_init` calls a chain of subsystem initializers; a failure at any
point jumps to a cleanup label, and the labels fall through one another
so that each failure point unwinds exactly what was initialized before
it.  The outcomes of the external subsystem calls are inputs of the
model; the core's own step — allocating and clearing the In-Progress
Table — is modelled directly.
-/

/-- The default of the module parameter `hash_table_size`. -/
def hash_table_size : Nat := 509

/-- `-ENOMEM`, the value `pvfs2_init` returns when the `kcalloc` of the
In-Progress Table fails. -/
def ENOMEM : Int := 12

/-- The cleanup calls `pvfs2_init` can perform on a failure path, in the
order its fall-through labels run them. -/
inductive Cleanup where
  | pvfs2_debugfs_cleanup
  | orangefs_sysfs_exit
  | fsid_key_table_finalize
  | kfree_htable
  | pvfs2_dev_cleanup
  | kiocb_cache_finalize
  | pvfs2_inode_cache_finalize
  | dev_req_cache_finalize
  | op_cache_finalize
  | bdi_destroy
deriving DecidableEq

/-- Cleanups run from the `err:` label onwards. -/
def err_seq : List Cleanup :=
  [Cleanup.bdi_destroy]

/-- Cleanups run from the `cleanup_op:` label onwards. -/
def cleanup_op_seq : List Cleanup :=
  Cleanup.op_cache_finalize :: err_seq

/-- Cleanups run from the `cleanup_req:` label onwards. -/
def cleanup_req_seq : List Cleanup :=
  Cleanup.dev_req_cache_finalize :: cleanup_op_seq

/-- Cleanups run from the `cleanup_inode:` label onwards. -/
def cleanup_inode_seq : List Cleanup :=
  Cleanup.pvfs2_inode_cache_finalize :: cleanup_req_seq

/-- Cleanups run from the `cleanup_kiocb:` label onwards. -/
def cleanup_kiocb_seq : List Cleanup :=
  Cleanup.kiocb_cache_finalize :: cleanup_inode_seq

/-- Cleanups run from the `cleanup_device:` label onwards. -/
def cleanup_device_seq : List Cleanup :=
  Cleanup.pvfs2_dev_cleanup :: cleanup_kiocb_seq

/-- Cleanups run from the `cleanup_progress_table:` label onwards. -/
def cleanup_progress_table_seq : List Cleanup :=
  Cleanup.kfree_htable :: cleanup_device_seq

/-- Cleanups run when `register_filesystem` fails: the three explicit
calls before the fall into `cleanup_progress_table:`. -/
def register_fail_seq : List Cleanup :=
  Cleanup.pvfs2_debugfs_cleanup :: Cleanup.orangefs_sysfs_exit ::
    Cleanup.fsid_key_table_finalize :: cleanup_progress_table_seq

/-- Return values of the external calls `pvfs2_init` makes, treated as
inputs of the model (`kcalloc_ok` stands for the `kcalloc` of
`htable_ops_in_progress` succeeding). -/
structure InitEnv where
  bdi_init_ret : Int
  op_cache_initialize_ret : Int
  dev_req_cache_initialize_ret : Int
  pvfs2_inode_cache_initialize_ret : Int
  kiocb_cache_initialize_ret : Int
  pvfs2_dev_init_ret : Int
  kcalloc_ok : Bool
  fsid_key_table_initialize_ret : Int
  orangefs_prepare_debugfs_help_string_ret : Int
  register_filesystem_ret : Int
deriving DecidableEq

/-- Outcome of the initialization chain `pvfs2_init` runs after the
timeout clamping: its return value, whether the filesystem type ended up
registered, the cleanup calls that ran (in order), whether the
In-Progress Table storage is still allocated at return, and the table
contents when allocated. -/
structure InitOutcome where
  ret : Int
  registered : Bool
  cleanups : List Cleanup
  htable_allocated : Bool
  htable : Option (List (List Op))
deriving DecidableEq

/-- The chain of subsystem initializations `pvfs2_init` performs after
clamping the timeouts — caches, device subsystem, the `kcalloc` and
clearing of the In-Progress Table, fsid key table, debugfs help string,
filesystem registration — transcribed from its goto-structured control
flow.  `n` is the value of `hash_table_size`. -/
def pvfs2_init_chain (env : InitEnv) (n : Nat) : InitOutcome :=
  if env.op_cache_initialize_ret < 0 then
    { ret := env.op_cache_initialize_ret, registered := false,
      cleanups := err_seq, htable_allocated := false, htable := none }
  else if env.dev_req_cache_initialize_ret < 0 then
    { ret := env.dev_req_cache_initialize_ret, registered := false,
      cleanups := cleanup_op_seq, htable_allocated := false, htable := none }
  else if env.pvfs2_inode_cache_initialize_ret < 0 then
    { ret := env.pvfs2_inode_cache_initialize_ret, registered := false,
      cleanups := cleanup_req_seq, htable_allocated := false, htable := none }
  else if env.kiocb_cache_initialize_ret < 0 then
    { ret := env.kiocb_cache_initialize_ret, registered := false,
      cleanups := cleanup_inode_seq, htable_allocated := false, htable := none }
  else if env.pvfs2_dev_init_ret < 0 then
    { ret := env.pvfs2_dev_init_ret, registered := false,
      cleanups := cleanup_kiocb_seq, htable_allocated := false, htable := none }
  else if env.kcalloc_ok = false then
    { ret := -ENOMEM, registered := false,
      cleanups := cleanup_device_seq, htable_allocated := false, htable := none }
  else if env.fsid_key_table_initialize_ret < 0 then
    { ret := env.fsid_key_table_initialize_ret, registered := false,
      cleanups := cleanup_progress_table_seq, htable_allocated := false, htable := none }
  else if env.orangefs_prepare_debugfs_help_string_ret ≠ 0 then
    { ret := env.orangefs_prepare_debugfs_help_string_ret, registered := false,
      cleanups := [], htable_allocated := true,
      htable := some (List.replicate n []) }
  else if env.register_filesystem_ret = 0 then
    { ret := 0, registered := true, cleanups := [],
      htable_allocated := true, htable := some (List.replicate n []) }
  else
    { ret := env.register_filesystem_ret, registered := false,
      cleanups := register_fail_seq, htable_allocated := false, htable := none }

/-- Result of `pvfs2_init` as a whole: the chain's outcome together
with the timeout globals after the call. -/
structure InitResult where
  ret : Int
  registered : Bool
  cleanups : List Cleanup
  htable_allocated : Bool
  op_timeout_secs : Int
  slot_timeout_secs : Int
  htable : Option (List (List Op))
deriving DecidableEq

/-- `pvfs2_init`: if `bdi_init` fails its error is returned at once;
otherwise negative `op_timeout_secs` / `slot_timeout_secs` module
parameters are clamped to 0 and the initialization chain runs.  `opT0`
and `slotT0` are the module-parameter values at entry, `n` the value of
`hash_table_size`. -/
def pvfs2_init (env : InitEnv) (opT0 slotT0 : Int) (n : Nat) : InitResult :=
  if env.bdi_init_ret ≠ 0 then
    { ret := env.bdi_init_ret, registered := false, cleanups := [],
      htable_allocated := false, op_timeout_secs := opT0,
      slot_timeout_secs := slotT0, htable := none }
  else
    { ret := (pvfs2_init_chain env n).ret,
      registered := (pvfs2_init_chain env n).registered,
      cleanups := (pvfs2_init_chain env n).cleanups,
      htable_allocated := (pvfs2_init_chain env n).htable_allocated,
      op_timeout_secs := if opT0 < 0 then 0 else opT0,
      slot_timeout_secs := if slotT0 < 0 then 0 else slotT0,
      htable := (pvfs2_init_chain env n).htable }

/-- The external calls preceding the table allocation all succeed. -/
def preTableSuccess (env : InitEnv) : Prop :=
  env.bdi_init_ret = 0 ∧ 0 ≤ env.op_cache_initialize_ret ∧
    0 ≤ env.dev_req_cache_initialize_ret ∧
    0 ≤ env.pvfs2_inode_cache_initialize_ret ∧
    0 ≤ env.kiocb_cache_initialize_ret ∧ 0 ≤ env.pvfs2_dev_init_ret

/-- Every external call `pvfs2_init` makes succeeds. -/
def allSuccess (env : InitEnv) : Prop :=
  preTableSuccess env ∧ env.kcalloc_ok = true ∧
    0 ≤ env.fsid_key_table_initialize_ret ∧
    env.orangefs_prepare_debugfs_help_string_ret = 0 ∧
    env.register_filesystem_ret = 0

instance (env : InitEnv) : Decidable (preTableSuccess env) := by
  unfold preTableSuccess; infer_instance

instance (env : InitEnv) : Decidable (allSuccess env) := by
  unfold allSuccess; infer_instance

/-! ## Derived state predicates used by the invariant claims -/

/-- Every record in the In-Progress Table has state `Claimed` (the
table-membership direction of the spec's table invariant). -/
def tableAllClaimed (s : EngineState) : Bool :=
  s.htable.all (fun b => b.all (fun op => op.state == OpState.Claimed))

/-- Every record in the In-Progress Table has state `Purged`. -/
def tableAllPurged (s : EngineState) : Bool :=
  s.htable.all (fun b => b.all (fun op => op.state == OpState.Purged))

/-- The tags linked into each bucket of the In-Progress Table. -/
def tableTags (s : EngineState) : List (List Nat) :=
  s.htable.map (fun b => b.map Op.tag)

/-! ## Lemmas about the purge sweep -/

theorem purge_bucket_tags (b : List Op) : (purge_bucket b).map Op.tag = b.map Op.tag := by
  induction b with
  | nil => rfl
  | cons op rest ih => simp [purge_bucket, set_op_state_purged]

theorem purge_bucket_states (b : List Op) : ∀ op ∈ purge_bucket b, op.state = OpState.Purged := by
  intro op hop
  simp only [purge_bucket, List.mem_map] at hop
  obtain ⟨a, _, rfl⟩ := hop
  rfl

theorem purge_tableTags (s : EngineState) : tableTags (purge_inprogress_ops s) = tableTags s := by
  simp only [tableTags, purge_inprogress_ops, List.map_map]
  exact List.map_congr_left (fun b _ => purge_bucket_tags b)

theorem purge_requestList (s : EngineState) :
    (purge_inprogress_ops s).requestList = s.requestList := rfl

theorem wake_mem_purgeBucketEvents (i : Nat) (b : List Op) (op : Op) (hop : op ∈ b) :
    Event.wake op.tag ∈ purgeBucketEvents i b := by
  unfold purgeBucketEvents
  apply List.mem_cons_of_mem
  apply List.mem_flatten.mpr
  refine ⟨purgeOpEvents op, List.mem_map_of_mem _ hop, ?_⟩
  simp [purgeOpEvents]

theorem wake_mem_purgeBuckets (op : Op) (b : List Op) (hop : op ∈ b) :
    ∀ (bs : List (List Op)) (i : Nat), b ∈ bs → Event.wake op.tag ∈ purgeBuckets i bs := by
  intro bs
  induction bs with
  | nil => intro i hb; cases hb
  | cons hd tl ih =>
    intro i hb
    rw [purgeBuckets]
    rcases List.mem_cons.mp hb with rfl | hb2
    · exact List.mem_append_left _ (wake_mem_purgeBucketEvents i b op hop)
    · exact List.mem_append_right _ (ih (i + 1) hb2)

theorem bucketVisits_append (xs ys : List Event) :
    bucketVisits (xs ++ ys) = bucketVisits xs ++ bucketVisits ys := by
  simp [bucketVisits]

theorem bucketVisits_opEvents (b : List Op) :
    bucketVisits ((b.map purgeOpEvents).flatten) = [] := by
  induction b with
  | nil => rfl
  | cons op rest ih =>
    simp only [List.map_cons, List.flatten_cons, bucketVisits_append]
    rw [ih]
    simp [bucketVisits, purgeOpEvents, visitIdx]

theorem bucketVisits_purgeBucketEvents (i : Nat) (b : List Op) :
    bucketVisits (purgeBucketEvents i b) = [i] := by
  have h := bucketVisits_opEvents b
  simp only [purgeBucketEvents, bucketVisits, List.filterMap_cons] at h ⊢
  simp [visitIdx, h]

theorem bucketVisits_purgeBuckets (i : Nat) (bs : List (List Op)) :
    bucketVisits (purgeBuckets i bs) = List.range' i bs.length := by
  induction bs generalizing i with
  | nil => rfl
  | cons b rest ih =>
    rw [purgeBuckets, bucketVisits_append, bucketVisits_purgeBucketEvents, ih,
      List.length_cons, List.range'_succ]
    rfl

theorem opScopedLocks_opEvents (b : List Op) (tail : List Event) :
    opScopedLocks ((b.map purgeOpEvents).flatten ++ tail) = opScopedLocks tail := by
  induction b with
  | nil => rfl
  | cons op rest ih =>
    simp only [List.map_cons, List.flatten_cons, List.append_assoc, purgeOpEvents,
      List.cons_append]
    rw [opScopedLocks, opScopedLocks]
    simp [ih]

theorem opScopedLocks_purgeBuckets (i : Nat) (bs : List (List Op)) :
    opScopedLocks (purgeBuckets i bs) = true := by
  induction bs generalizing i with
  | nil => rfl
  | cons b rest ih =>
    rw [purgeBuckets, purgeBucketEvents, List.cons_append, opScopedLocks,
      opScopedLocks_opEvents]
    exact ih (i + 1)

/-- An event the purge sweep can emit: a per-op lock, unlock or wake-up,
or entering a bucket. -/
def isPurgeEvent : Event → Bool
  | Event.lockOp _ => true
  | Event.unlockOp _ => true
  | Event.wake _ => true
  | Event.visitBucket _ => true
  | _ => false

theorem purgeBuckets_events_shape (bs : List (List Op)) :
    ∀ (i : Nat), ∀ e ∈ purgeBuckets i bs, isPurgeEvent e = true := by
  induction bs with
  | nil => intro i e he; cases he
  | cons b rest ih =>
    intro i e he
    rw [purgeBuckets] at he
    rcases List.mem_append.mp he with h | h
    · rw [purgeBucketEvents] at h
      rcases List.mem_cons.mp h with rfl | h2
      · rfl
      · rcases List.mem_flatten.mp h2 with ⟨l, hl, hel⟩
        rcases List.mem_map.mp hl with ⟨op, _, rfl⟩
        simp only [purgeOpEvents, List.mem_cons, List.mem_singleton] at hel
        rcases hel with rfl | rfl | h3
        · rfl
        · rfl
        · rcases h3 with rfl | h4
          · rfl
          · cases h4
    · exact ih (i + 1) e h

/-! ## Concrete states used by the counterexamples -/

/-- A claimed op sitting in the only bucket of a one-bucket table. -/
def c1op : Op := { tag := 11, state := OpState.Claimed, response := none }

def c1state : EngineState := { requestList := [], htable := [[c1op]] }

def c3op : Op := { tag := 23, state := OpState.Claimed, response := none }

def c3state : EngineState := { requestList := [], htable := [[c3op], []] }

def c4op : Op := { tag := 31, state := OpState.Queued, response := none }

def c4state : EngineState := { requestList := [c4op], htable := [[], []] }

def c2op : Op := { tag := 7, state := OpState.Claimed, response := none }

def c2state : EngineState := { requestList := [], htable := [[c2op]] }

/-! ## Claims C1, C3, C4, C6: the purge sweep -/

/-- Claim C1, counterexample: `purge_inprogress_ops` does not unlink
purged records from their In-Progress Table bucket.  With one claimed
record (tag 11) in bucket 0, the record is still linked in bucket 0
after the sweep, so the claim's "has been unlinked from its bucket"
fails. -/
theorem claim_C1_counterexample :
    c1state.htable.getD 0 [] = [c1op] ∧
      ((purge_inprogress_ops c1state).htable.getD 0 []).map Op.tag = [11] ∧
      (purge_inprogress_ops c1state).htable.getD 0 [] ≠ [] := by decide

/-- Claim C1, amended: after `purge_inprogress_ops` runs, every record
that was in any In-Progress Table bucket has state `Purged` and has had
its wait queue woken (each handled under only its own per-op lock), but
the record is not unlinked: every bucket keeps exactly the tags it held
before the sweep. -/
theorem claim_C1_purge_marks_and_wakes_but_keeps_records_linked (s : EngineState) :
    (∀ b ∈ (purge_inprogress_ops s).htable, ∀ op ∈ b, op.state = OpState.Purged) ∧
      tableTags (purge_inprogress_ops s) = tableTags s ∧
      (∀ b ∈ s.htable, ∀ op ∈ b, Event.wake op.tag ∈ purgeTrace s) := by
  refine ⟨?_, purge_tableTags s, ?_⟩
  · intro b hb op hop
    simp only [purge_inprogress_ops, List.mem_map] at hb
    obtain ⟨b0, _, rfl⟩ := hb
    exact purge_bucket_states b0 op hop
  · intro b hb op hop
    exact wake_mem_purgeBuckets op b hop s.htable 0 hb

/-- A claimed op used to witness the amended C1 theorem. -/
def w1op : Op := { tag := 41, state := OpState.Claimed, response := none }

def w1state : EngineState := { requestList := [], htable := [[w1op]] }

/-- Claim C1, witness: the amended statement evaluated on a concrete
one-record table — the purged copy of the record is `Purged`, bucket
membership is unchanged, and its wake-up is in the trace. -/
theorem claim_C1_witness :
    (set_op_state_purged w1op).state = OpState.Purged ∧
      tableTags (purge_inprogress_ops w1state) = tableTags w1state ∧
      Event.wake w1op.tag ∈ purgeTrace w1state :=
  have h := claim_C1_purge_marks_and_wakes_but_keeps_records_linked w1state
  ⟨h.1 (purge_bucket [w1op]) (by decide) (set_op_state_purged w1op) (by decide),
    h.2.1,
    h.2.2 [w1op] (by decide) w1op (by decide)⟩

/-- Claim C3, counterexample: the sweep `purge_inprogress_ops` does not
preserve the invariant "a tag is in the In-Progress Table iff its record
is `Claimed`".  On a table whose only record (tag 23) is claimed the
invariant holds, but after the sweep the record is still in its bucket
with state `Purged`. -/
theorem claim_C3_counterexample :
    tableAllClaimed c3state = true ∧
      tableAllClaimed (purge_inprogress_ops c3state) = false ∧
      (purge_inprogress_ops c3state).htable.getD 0 [] ≠ [] := by decide

/-- Claim C3, amended: `purge_inprogress_ops` breaks the
tag-in-table-iff-`Claimed` invariant rather than preserving it: it
leaves every bucket's membership unchanged while forcing every member's
state to `Purged`, so afterwards every tag still present in the table
belongs to a `Purged` record. -/
theorem claim_C3_purge_leaves_purged_records_in_table (s : EngineState) :
    tableAllPurged (purge_inprogress_ops s) = true ∧
      tableTags (purge_inprogress_ops s) = tableTags s := by
  refine ⟨?_, purge_tableTags s⟩
  simp only [tableAllPurged, List.all_eq_true]
  intro b hb op hop
  simp only [purge_inprogress_ops, List.mem_map] at hb
  obtain ⟨b0, _, rfl⟩ := hb
  simp [purge_bucket_states b0 op hop]

/-- Claim C4, counterexample: the purge sweep does not drain the Pending
Queue at all.  With one queued record (tag 31) on `pvfs2_request_list`,
the queue is untouched by `purge_inprogress_ops` and its trace never
enters the queue, so "the Pending Queue is drained exactly one time" by
the sweep fails. -/
theorem claim_C4_counterexample :
    c4state.requestList = [c4op] ∧
      (purge_inprogress_ops c4state).requestList = [c4op] ∧
      Event.visitQueue ∉ purgeTrace c4state := by decide

/-- Claim C4, amended: `purge_inprogress_ops` traverses each of the
`hash_table_size` bucket lists exactly once — its trace visits exactly
the bucket indices `0, …, hash_table_size - 1`, in order, none skipped
and none repeated — but it leaves the Pending Queue untouched; the
Pending Queue is instead drained (to empty, in its single
`while`-loop pass) by `pvfs2_exit`. -/
theorem claim_C4_buckets_visited_exactly_once (s : EngineState) :
    bucketVisits (purgeTrace s) = List.range s.htable.length ∧
      (purge_inprogress_ops s).requestList = s.requestList ∧
      (∀ q : List Op, pvfs2_exit_drain_request_list q = []) := by
  refine ⟨?_, purge_requestList s, ?_⟩
  · rw [purgeTrace, bucketVisits_purgeBuckets, List.range_eq_range']
  · intro q
    induction q with
    | nil => rfl
    | cons op rest ih => rw [pvfs2_exit_drain_request_list]; exact ih

/-- Claim C6: during the purge sweep over the In-Progress Table, the
only lock acquired per record is that record's own lock, released before
the sweep touches anything else; the table-wide structural lock
`htable_ops_in_progress_lock` is never taken during the walk, so no
single global lock is held for the sweep. -/
theorem claim_C6_purge_takes_only_per_op_locks (s : EngineState) :
    opScopedLocks (purgeTrace s) = true ∧
      Event.lockTable ∉ purgeTrace s ∧ Event.unlockTable ∉ purgeTrace s := by
  refine ⟨opScopedLocks_purgeBuckets 0 s.htable, ?_, ?_⟩ <;>
    · intro h
      have hshape := purgeBuckets_events_shape s.htable 0 _ h
      simp [isPurgeEvent] at hshape

/-! ## Claim C2: the drain performed by `pvfs2_exit` -/

theorem exit_drain_bucket_nonempty (op : Op) (rest : List Op) :
    ∀ fuel : Nat, pvfs2_exit_drain_bucket fuel (op :: rest) = none := by
  intro fuel
  induction fuel with
  | zero => rfl
  | succ f ih => rw [pvfs2_exit_drain_bucket, op_release_list_effect]; exact ih

/-- Claim C2: with a single outstanding record (tag 7) in bucket 0 of
the In-Progress Table, the bucket drain of `pvfs2_exit` never reaches an
empty bucket no matter how many iterations it is allowed: its loop calls
`op_release` on the first entry without `list_del`, so `list_empty`
never becomes true and the drain cannot complete (the Pending Queue
half, whose loop does `list_del`, does empty the queue). -/
theorem claim_C2_exit_bucket_drain_cannot_finish :
    (∀ q : List Op, pvfs2_exit_drain_request_list q = []) ∧
      (∀ fuel : Nat, pvfs2_exit_drain_bucket fuel [c2op] = none) ∧
      (∀ fuel : Nat, pvfs2_exit_drain fuel c2state = none) := by
  refine ⟨?_, fun fuel => exit_drain_bucket_nonempty c2op [] fuel, ?_⟩
  · intro q
    induction q with
    | nil => rfl
    | cons op rest ih => rw [pvfs2_exit_drain_request_list]; exact ih
  · intro fuel
    rw [pvfs2_exit_drain]
    have h : pvfs2_exit_drain_buckets fuel c2state.htable = none := by
      show pvfs2_exit_drain_buckets fuel [[c2op]] = none
      rw [pvfs2_exit_drain_buckets, exit_drain_bucket_nonempty c2op [] fuel]
    rw [h]

/-! ## Claims C5, C8, C9, C10: initialization -/

/-- An environment in which every external call succeeds but the
`kcalloc` of the In-Progress Table fails. -/
def envKcallocFail : InitEnv :=
  { bdi_init_ret := 0, op_cache_initialize_ret := 0, dev_req_cache_initialize_ret := 0,
    pvfs2_inode_cache_initialize_ret := 0, kiocb_cache_initialize_ret := 0,
    pvfs2_dev_init_ret := 0, kcalloc_ok := false, fsid_key_table_initialize_ret := 0,
    orangefs_prepare_debugfs_help_string_ret := 0, register_filesystem_ret := 0 }

/-- An environment in which every call `pvfs2_init` makes succeeds. -/
def envAllOk : InitEnv :=
  { bdi_init_ret := 0, op_cache_initialize_ret := 0, dev_req_cache_initialize_ret := 0,
    pvfs2_inode_cache_initialize_ret := 0, kiocb_cache_initialize_ret := 0,
    pvfs2_dev_init_ret := 0, kcalloc_ok := true, fsid_key_table_initialize_ret := 0,
    orangefs_prepare_debugfs_help_string_ret := 0, register_filesystem_ret := 0 }

/-- An environment in which everything up to and including the fsid key
table succeeds and `orangefs_prepare_debugfs_help_string` then fails. -/
def envHelpFail : InitEnv :=
  { bdi_init_ret := 0, op_cache_initialize_ret := 0, dev_req_cache_initialize_ret := 0,
    pvfs2_inode_cache_initialize_ret := 0, kiocb_cache_initialize_ret := 0,
    pvfs2_dev_init_ret := 0, kcalloc_ok := true, fsid_key_table_initialize_ret := 0,
    orangefs_prepare_debugfs_help_string_ret := -12, register_filesystem_ret := 0 }

/-- An environment in which `op_cache_initialize`, the first bookkeeping
initializer, fails. -/
def envOpCacheFail : InitEnv :=
  { bdi_init_ret := 0, op_cache_initialize_ret := -12, dev_req_cache_initialize_ret := 0,
    pvfs2_inode_cache_initialize_ret := 0, kiocb_cache_initialize_ret := 0,
    pvfs2_dev_init_ret := 0, kcalloc_ok := true, fsid_key_table_initialize_ret := 0,
    orangefs_prepare_debugfs_help_string_ret := 0, register_filesystem_ret := 0 }

/-- Claim C5: the only process-fatal failure of the core itself is the
`kcalloc` of the In-Progress Table storage failing — then `pvfs2_init`
returns `-ENOMEM`, the filesystem is never registered (the engine does
not start), the table is not kept, and the cleanup labels unwind the
device subsystem, the four caches and the backing-dev info that were
initialized before it; and whenever that allocation (and every external
subsystem call) succeeds, initialization succeeds outright, so no
condition of the core other than that allocation is fatal. -/
theorem claim_C5_only_table_alloc_failure_is_fatal :
    (∀ (env : InitEnv) (o s : Int) (n : Nat), preTableSuccess env → env.kcalloc_ok = false →
        (pvfs2_init env o s n).ret = -ENOMEM ∧
        (pvfs2_init env o s n).registered = false ∧
        (pvfs2_init env o s n).cleanups = cleanup_device_seq ∧
        (pvfs2_init env o s n).htable = none) ∧
      (∀ (env : InitEnv) (o s : Int) (n : Nat), allSuccess env →
        (pvfs2_init env o s n).ret = 0 ∧ (pvfs2_init env o s n).registered = true) := by
  constructor
  · rintro env o s n ⟨h1, h2, h3, h4, h5, h6⟩ hk
    simp [pvfs2_init, pvfs2_init_chain, h1, hk, not_lt.mpr h2, not_lt.mpr h3,
      not_lt.mpr h4, not_lt.mpr h5, not_lt.mpr h6]
  · rintro env o s n ⟨⟨h1, h2, h3, h4, h5, h6⟩, hk, h7, h8, h9⟩
    simp [pvfs2_init, pvfs2_init_chain, h1, hk, h8, h9, not_lt.mpr h2, not_lt.mpr h3,
      not_lt.mpr h4, not_lt.mpr h5, not_lt.mpr h6, not_lt.mpr h7]

/-- Claim C5, witness: the kcalloc-failure branch and the all-success
branch of `claim_C5_only_table_alloc_failure_is_fatal`, evaluated at
concrete environments. -/
theorem claim_C5_witness :
    (pvfs2_init envKcallocFail 10 900 509).ret = -ENOMEM ∧
      (pvfs2_init envKcallocFail 10 900 509).registered = false ∧
      (pvfs2_init envKcallocFail 10 900 509).cleanups = cleanup_device_seq ∧
      (pvfs2_init envKcallocFail 10 900 509).htable = none ∧
      (pvfs2_init envAllOk 10 900 509).ret = 0 ∧
      (pvfs2_init envAllOk 10 900 509).registered = true := by
  have hfail := claim_C5_only_table_alloc_failure_is_fatal.1 envKcallocFail 10 900 509
    (by decide) (by decide)
  have hok := claim_C5_only_table_alloc_failure_is_fatal.2 envAllOk 10 900 509 (by decide)
  exact ⟨hfail.1, hfail.2.1, hfail.2.2.1, hfail.2.2.2, hok.1, hok.2⟩

/-- Claim C9: when `orangefs_prepare_debugfs_help_string` fails,
`pvfs2_init` jumps straight to `out:` — it returns the error with no
cleanup call at all, leaving the In-Progress Table storage allocated and
the caches, device subsystem and fsid key table unfinalized — whereas
each earlier failure point runs exactly the fall-through cleanup
sequence unwinding everything initialized before it. -/
theorem claim_C9_help_string_failure_skips_all_cleanup :
    (∀ (env : InitEnv) (o s : Int) (n : Nat), preTableSuccess env → env.kcalloc_ok = true →
        0 ≤ env.fsid_key_table_initialize_ret →
        env.orangefs_prepare_debugfs_help_string_ret ≠ 0 →
        (pvfs2_init env o s n).ret = env.orangefs_prepare_debugfs_help_string_ret ∧
        (pvfs2_init env o s n).cleanups = [] ∧
        (pvfs2_init env o s n).htable_allocated = true ∧
        (pvfs2_init env o s n).registered = false) ∧
      (∀ (env : InitEnv) (o s : Int) (n : Nat), env.bdi_init_ret = 0 →
        (env.op_cache_initialize_ret < 0 →
          (pvfs2_init env o s n).cleanups = err_seq ∧
          (pvfs2_init env o s n).htable_allocated = false) ∧
        (0 ≤ env.op_cache_initialize_ret → env.dev_req_cache_initialize_ret < 0 →
          (pvfs2_init env o s n).cleanups = cleanup_op_seq ∧
          (pvfs2_init env o s n).htable_allocated = false) ∧
        (0 ≤ env.op_cache_initialize_ret → 0 ≤ env.dev_req_cache_initialize_ret →
          env.pvfs2_inode_cache_initialize_ret < 0 →
          (pvfs2_init env o s n).cleanups = cleanup_req_seq ∧
          (pvfs2_init env o s n).htable_allocated = false) ∧
        (0 ≤ env.op_cache_initialize_ret → 0 ≤ env.dev_req_cache_initialize_ret →
          0 ≤ env.pvfs2_inode_cache_initialize_ret →
          env.kiocb_cache_initialize_ret < 0 →
          (pvfs2_init env o s n).cleanups = cleanup_inode_seq ∧
          (pvfs2_init env o s n).htable_allocated = false) ∧
        (0 ≤ env.op_cache_initialize_ret → 0 ≤ env.dev_req_cache_initialize_ret →
          0 ≤ env.pvfs2_inode_cache_initialize_ret →
          0 ≤ env.kiocb_cache_initialize_ret → env.pvfs2_dev_init_ret < 0 →
          (pvfs2_init env o s n).cleanups = cleanup_kiocb_seq ∧
          (pvfs2_init env o s n).htable_allocated = false) ∧
        (preTableSuccess env → env.kcalloc_ok = false →
          (pvfs2_init env o s n).cleanups = cleanup_device_seq ∧
          (pvfs2_init env o s n).htable_allocated = false) ∧
        (preTableSuccess env → env.kcalloc_ok = true →
          env.fsid_key_table_initialize_ret < 0 →
          (pvfs2_init env o s n).cleanups = cleanup_progress_table_seq ∧
          (pvfs2_init env o s n).htable_allocated = false)) := by
  constructor
  · rintro env o s n ⟨h1, h2, h3, h4, h5, h6⟩ hk h7 h8
    simp [pvfs2_init, pvfs2_init_chain, h1, hk, h8, not_lt.mpr h2, not_lt.mpr h3,
      not_lt.mpr h4, not_lt.mpr h5, not_lt.mpr h6, not_lt.mpr h7]
  · intro env o s n h1
    refine ⟨?_, ?_, ?_, ?_, ?_, ?_, ?_⟩
    · intro f2
      simp [pvfs2_init, pvfs2_init_chain, h1, f2]
    · intro h2 f3
      simp [pvfs2_init, pvfs2_init_chain, h1, f3, not_lt.mpr h2]
    · intro h2 h3 f4
      simp [pvfs2_init, pvfs2_init_chain, h1, f4, not_lt.mpr h2, not_lt.mpr h3]
    · intro h2 h3 h4 f5
      simp [pvfs2_init, pvfs2_init_chain, h1, f5, not_lt.mpr h2, not_lt.mpr h3,
        not_lt.mpr h4]
    · intro h2 h3 h4 h5 f6
      simp [pvfs2_init, pvfs2_init_chain, h1, f6, not_lt.mpr h2, not_lt.mpr h3,
        not_lt.mpr h4, not_lt.mpr h5]
    · rintro ⟨_, h2, h3, h4, h5, h6⟩ hk
      simp [pvfs2_init, pvfs2_init_chain, h1, hk, not_lt.mpr h2, not_lt.mpr h3,
        not_lt.mpr h4, not_lt.mpr h5, not_lt.mpr h6]
    · rintro ⟨_, h2, h3, h4, h5, h6⟩ hk f7
      simp [pvfs2_init, pvfs2_init_chain, h1, hk, f7, not_lt.mpr h2, not_lt.mpr h3,
        not_lt.mpr h4, not_lt.mpr h5, not_lt.mpr h6]

/-- Claim C9, witness: the help-string failure leaves the table
allocated with no cleanup, while the earliest cache failure unwinds via
the `err:` label, both evaluated at concrete environments. -/
theorem claim_C9_witness :
    (pvfs2_init envHelpFail 10 900 509).ret = -12 ∧
      (pvfs2_init envHelpFail 10 900 509).cleanups = [] ∧
      (pvfs2_init envHelpFail 10 900 509).htable_allocated = true ∧
      (pvfs2_init envOpCacheFail 10 900 509).cleanups = err_seq := by
  have hhelp := (claim_C9_help_string_failure_skips_all_cleanup.1 envHelpFail 10 900 509
    (by decide) (by decide) (by decide) (by decide))
  have hop := (claim_C9_help_string_failure_skips_all_cleanup.2 envOpCacheFail 10 900 509
    (by decide)).1 (by decide)
  exact ⟨hhelp.1, hhelp.2.1, hhelp.2.2.1, hop.1⟩

theorem pvfs2_init_timeouts (env : InitEnv) (o s : Int) (n : Nat) (h : env.bdi_init_ret = 0) :
    (pvfs2_init env o s n).op_timeout_secs = (if o < 0 then 0 else o) ∧
      (pvfs2_init env o s n).slot_timeout_secs = (if s < 0 then 0 else s) := by
  unfold pvfs2_init
  rw [if_neg (by simp [h])]
  exact ⟨rfl, rfl⟩

theorem pvfs2_init_ret_zero_bdi (env : InitEnv) (o s : Int) (n : Nat)
    (h : (pvfs2_init env o s n).ret = 0) : env.bdi_init_ret = 0 := by
  by_contra hb
  unfold pvfs2_init at h
  rw [if_pos hb] at h
  exact hb h

/-- Claim C10: `pvfs2_init` clamps a negative configured
`op_timeout_secs` or `slot_timeout_secs` to 0 right after
`bdi_init` succeeds, so after a successful initialization both timeout
globals are non-negative (and equal to the clamp of their configured
values). -/
theorem claim_C10_negative_timeouts_clamped (env : InitEnv) (o s : Int) (n : Nat)
    (h : (pvfs2_init env o s n).ret = 0) :
    0 ≤ (pvfs2_init env o s n).op_timeout_secs ∧
      0 ≤ (pvfs2_init env o s n).slot_timeout_secs ∧
      (pvfs2_init env o s n).op_timeout_secs = (if o < 0 then 0 else o) ∧
      (pvfs2_init env o s n).slot_timeout_secs = (if s < 0 then 0 else s) := by
  have hbdi := pvfs2_init_ret_zero_bdi env o s n h
  have ht := pvfs2_init_timeouts env o s n hbdi
  refine ⟨?_, ?_, ht.1, ht.2⟩
  · rw [ht.1]; split <;> omega
  · rw [ht.2]; split <;> omega

/-- Claim C10, witness: a successful initialization configured with
negative timeouts ends with both timeout globals at 0. -/
theorem claim_C10_witness :
    (pvfs2_init envAllOk (-5) (-7) 509).ret = 0 ∧
      0 ≤ (pvfs2_init envAllOk (-5) (-7) 509).op_timeout_secs ∧
      0 ≤ (pvfs2_init envAllOk (-5) (-7) 509).slot_timeout_secs :=
  ⟨by decide, (claim_C10_negative_timeouts_clamped envAllOk (-5) (-7) 509 (by decide)).1,
    (claim_C10_negative_timeouts_clamped envAllOk (-5) (-7) 509 (by decide)).2.1⟩

theorem pvfs2_init_chain_htable_of_registered (env : InitEnv) (n : Nat)
    (h : (pvfs2_init_chain env n).registered = true) :
    (pvfs2_init_chain env n).htable = some (List.replicate n ([] : List Op)) := by
  unfold pvfs2_init_chain at h ⊢
  by_cases c1 : env.op_cache_initialize_ret < 0
  · rw [if_pos c1] at h; simp at h
  rw [if_neg c1] at h ⊢
  by_cases c2 : env.dev_req_cache_initialize_ret < 0
  · rw [if_pos c2] at h; simp at h
  rw [if_neg c2] at h ⊢
  by_cases c3 : env.pvfs2_inode_cache_initialize_ret < 0
  · rw [if_pos c3] at h; simp at h
  rw [if_neg c3] at h ⊢
  by_cases c4 : env.kiocb_cache_initialize_ret < 0
  · rw [if_pos c4] at h; simp at h
  rw [if_neg c4] at h ⊢
  by_cases c5 : env.pvfs2_dev_init_ret < 0
  · rw [if_pos c5] at h; simp at h
  rw [if_neg c5] at h ⊢
  by_cases c6 : env.kcalloc_ok = false
  · rw [if_pos c6] at h; simp at h
  rw [if_neg c6] at h ⊢
  by_cases c7 : env.fsid_key_table_initialize_ret < 0
  · rw [if_pos c7] at h; simp at h
  rw [if_neg c7] at h ⊢
  by_cases c8 : env.orangefs_prepare_debugfs_help_string_ret ≠ 0
  · rw [if_pos c8] at h; simp at h
  rw [if_neg c8] at h ⊢
  by_cases c9 : env.register_filesystem_ret = 0
  · rw [if_pos c9]
  · rw [if_neg c9] at h; simp at h

theorem pvfs2_init_htable_of_registered (env : InitEnv) (o s : Int) (n : Nat)
    (h : (pvfs2_init env o s n).registered = true) :
    (pvfs2_init env o s n).htable = some (List.replicate n ([] : List Op)) := by
  unfold pvfs2_init at h ⊢
  by_cases hb : env.bdi_init_ret ≠ 0
  · rw [if_pos hb] at h; simp at h
  · rw [if_neg hb] at h ⊢
    exact pvfs2_init_chain_htable_of_registered env n h

theorem complete_preserves_length (table : List (List Op)) (t r : Nat) :
    ((complete table t r).2.1).length = table.length := by
  simp only [complete]
  split
  · rfl
  · split
    · rfl
    · split
      · simp
      · rfl

/-- Claim C8: the In-Progress Table's bucket count comes from the
configurable `hash_table_size`, whose default is 509; right after a
successful `pvfs2_init` the table consists of exactly that many buckets,
each an empty list; and neither the purge sweep nor the (spec-modelled)
completion path ever changes the number of buckets — there is no
rehashing. -/
theorem claim_C8_bucket_count_fixed_at_init :
    hash_table_size = 509 ∧
      (∀ (env : InitEnv) (o s : Int) (n : Nat), (pvfs2_init env o s n).registered = true →
        (pvfs2_init env o s n).htable = some (List.replicate n ([] : List Op))) ∧
      (∀ n : Nat, (List.replicate n ([] : List Op)).length = n ∧
        ∀ b ∈ List.replicate n ([] : List Op), b = []) ∧
      (∀ st : EngineState, (purge_inprogress_ops st).htable.length = st.htable.length) ∧
      (∀ (table : List (List Op)) (t r : Nat),
        ((complete table t r).2.1).length = table.length) := by
  refine ⟨rfl, pvfs2_init_htable_of_registered, ?_, ?_, complete_preserves_length⟩
  · intro n
    exact ⟨by simp, fun b hb => List.eq_of_mem_replicate hb⟩
  · intro st
    simp [purge_inprogress_ops]

/-- Claim C8, witness: a successful initialization with
`n = hash_table_size = 509` yields a table of 509 empty buckets. -/
theorem claim_C8_witness :
    (pvfs2_init envAllOk 10 900 hash_table_size).registered = true ∧
      (pvfs2_init envAllOk 10 900 hash_table_size).htable =
        some (List.replicate hash_table_size ([] : List Op)) :=
  ⟨by decide, claim_C8_bucket_count_fixed_at_init.2.1 envAllOk 10 900 hash_table_size (by decide)⟩

/-! ## Claim C7: a completion takes effect at most once -/

theorem eraseTag_tag_ne (b : List Op) (t : Nat) (hnd : (b.map Op.tag).Nodup) :
    ∀ op ∈ eraseTag b t, op.tag ≠ t := by
  induction b with
  | nil => intro op hop; cases hop
  | cons hd rest ih =>
    rw [List.map_cons, List.nodup_cons] at hnd
    intro op hop
    simp only [eraseTag] at hop
    by_cases hh : hd.tag = t
    · rw [if_pos hh] at hop
      intro he
      apply hnd.1
      have hmem : op.tag ∈ rest.map Op.tag := List.mem_map_of_mem _ hop
      rwa [he, ← hh] at hmem
    · rw [if_neg hh] at hop
      rcases List.mem_cons.mp hop with rfl | h2
      · exact hh
      · exact ih hnd.2 op h2

theorem find?_eraseTag_none (b : List Op) (t : Nat) (hnd : (b.map Op.tag).Nodup) :
    (eraseTag b t).find? (fun op => op.tag == t) = none := by
  rw [List.find?_eq_none]
  intro op hop
  simp [eraseTag_tag_ne b t hnd op hop]

theorem getD_set_eq (l : List (List Op)) (i : Nat) (x : List Op) (h : i < l.length) :
    (l.set i x).getD i [] = x := by
  rw [List.getD_eq_getElem?_getD, List.getElem?_set_eq_of_lt x h]
  rfl

theorem getD_mem_of_lt (l : List (List Op)) (i : Nat) (h : i < l.length) :
    l.getD i [] ∈ l := by
  rw [List.getD_eq_getElem?_getD, List.getElem?_eq_getElem h]
  exact List.getElem_mem ..

/-- Claim C7: a completion takes effect at most once.  First part: if
`complete(tag, r)` succeeded (on a table whose buckets hold no duplicate
tags, per the spec's tag-uniqueness invariant), a second
`complete(tag, r2)` returns false and leaves the table — and every
record — entirely unchanged, because the success removed the tag from
its bucket.  Second part: a `complete` against a tag whose record is
already in a terminal (non-`Claimed`) state, or absent, returns false
and changes nothing. -/
theorem claim_C7_complete_takes_effect_at_most_once :
    (∀ (table tbl2 : List (List Op)) (t r r2 : Nat) (o : Option Op),
        (∀ b ∈ table, (b.map Op.tag).Nodup) →
        complete table t r = (true, tbl2, o) →
        complete tbl2 t r2 = (false, tbl2, none)) ∧
      (∀ (table : List (List Op)) (t r : Nat),
        (∀ op ∈ table.getD (t % table.length) [], op.tag = t → op.state ≠ OpState.Claimed) →
        complete table t r = (false, table, none)) := by
  constructor
  · intro table tbl2 t r r2 o hnd h
    simp only [complete] at h
    by_cases he : table.isEmpty
    · rw [if_pos he] at h
      simp at h
    rw [if_neg he] at h
    have hpos : table.length ≠ 0 := by
      rwa [List.isEmpty_iff_length_eq_zero] at he
    have hi : t % table.length < table.length := Nat.mod_lt t (Nat.pos_of_ne_zero hpos)
    cases hfind : (table.getD (t % table.length) []).find? (fun op => op.tag == t) with
    | none =>
      simp only [hfind] at h
      simp at h
    | some op =>
      simp only [hfind] at h
      by_cases hcl : (op.state == OpState.Claimed) = true
      · rw [if_pos hcl] at h
        have htbl : table.set (t % table.length)
            (eraseTag (table.getD (t % table.length) []) t) = tbl2 :=
          congrArg (fun p => p.2.1) h
        subst htbl
        have hndb := hnd _ (getD_mem_of_lt table (t % table.length) hi)
        simp only [complete]
        rw [if_neg (by rw [List.isEmpty_iff_length_eq_zero, List.length_set]; exact hpos)]
        rw [List.length_set, getD_set_eq _ _ _ hi, find?_eraseTag_none _ t hndb]
      · rw [if_neg hcl] at h
        simp at h
  · intro table t r hterm
    simp only [complete]
    by_cases he : table.isEmpty
    · rw [if_pos he]
    · rw [if_neg he]
      cases hfind : (table.getD (t % table.length) []).find? (fun op => op.tag == t) with
      | none => simp only [hfind]
      | some op =>
        simp only [hfind]
        have hmem := List.mem_of_find?_eq_some hfind
        have htag : op.tag = t := by simpa using List.find?_some hfind
        have hst : op.state ≠ OpState.Claimed := hterm op hmem htag
        rw [if_neg (by simp [hst])]

/-- Claim C7, witness: completing tag 5 on a one-bucket table succeeds
and removes the record; re-completing the same tag then returns false
and changes nothing, and completing a tag whose record is already
terminal (tag 9, `Purged`) is a no-op. -/
theorem claim_C7_witness :
    complete [[{ tag := 5, state := OpState.Claimed, response := none }]] 5 42 =
        (true, [[]], some { tag := 5, state := OpState.Serviced, response := some 42 }) ∧
      complete [[]] 5 43 = (false, [[]], none) ∧
      complete [[{ tag := 9, state := OpState.Purged, response := none }]] 9 1 =
        (false, [[{ tag := 9, state := OpState.Purged, response := none }]], none) :=
  ⟨by decide,
    claim_C7_complete_takes_effect_at_most_once.1
      [[{ tag := 5, state := OpState.Claimed, response := none }]] [[]] 5 42 43
      (some { tag := 5, state := OpState.Serviced, response := some 42 })
      (by decide) (by decide),
    claim_C7_complete_takes_effect_at_most_once.2
      [[{ tag := 9, state := OpState.Purged, response := none }]] 9 1 (by decide)⟩

end Pvfs2
